import Mathlib

/-!
Verification development for `lue_vuosiraportti.py`, a batch tool that reads a
week of electricity meter readings, aggregates per-day consumption and
production across three phases, and prints a formatted report.

Embedding conventions:
* Python `float` values are modelled as exact rationals (`ℚ`); the program does
  only additions and a single division by 1000, so the rational model captures
  the intended arithmetic exactly (the spec itself asks for exactness "within
  floating-point tolerance").
* Python `dict` is modelled as an insertion-ordered association list; dict
  equality is extensional (equality of lookups), matching Python semantics.
* Python exceptions are modelled with `Except`: an error aborts the remaining
  computation, as an uncaught exception does.
* `datetime.date` is modelled by `Date` below, with Python's proleptic
  Gregorian `toordinal` and `weekday` (0 = Monday .. 6 = Sunday).
-/

/-- A calendar date (proleptic Gregorian), modelling Python `datetime.date`. -/
@[ext]
structure Date where
  year : Nat
  month : Nat
  day : Nat
deriving DecidableEq, Repr

/-- Leap-year test, as Python `calendar`/`datetime` (`_is_leap`). -/
def isLeap (y : Nat) : Bool :=
  y % 4 == 0 && (y % 100 != 0 || y % 400 == 0)

/-- Number of days in month `m` of year `y` (months numbered from 1). -/
def daysInMonth (y m : Nat) : Nat :=
  if m = 2 then (if isLeap y then 29 else 28)
  else if m = 4 ∨ m = 6 ∨ m = 9 ∨ m = 11 then 30
  else 31

/-- Days in all years strictly before year `y`, as Python `_days_before_year`. -/
def daysBeforeYear (y : Nat) : Nat :=
  let n := y - 1
  n * 365 + n / 4 - n / 100 + n / 400

/-- Days in year `y` strictly before month `m`, as Python `_days_before_month`. -/
def daysBeforeMonth (y m : Nat) : Nat :=
  ((List.range (m - 1)).map (fun i => daysInMonth y (i + 1))).sum

/-- Python `date.toordinal`: day 1 is 0001-01-01 (a Monday). -/
def Date.toordinal (d : Date) : Nat :=
  daysBeforeYear d.year + daysBeforeMonth d.year d.month + d.day

/-- Python `date.weekday`: 0 = Monday through 6 = Sunday. -/
def Date.weekday (d : Date) : Nat :=
  (d.toordinal + 6) % 7

/-- Python `date` comparison: lexicographic on (year, month, day), strict. -/
def dateLT (a b : Date) : Prop :=
  a.year < b.year ∨
    (a.year = b.year ∧
      (a.month < b.month ∨ (a.month = b.month ∧ a.day < b.day)))

/-- Python `date` comparison: lexicographic on (year, month, day), non-strict. -/
def dateLE (a b : Date) : Prop :=
  dateLT a b ∨ a = b

instance (a b : Date) : Decidable (dateLT a b) := by
  unfold dateLT; exact inferInstance

instance (a b : Date) : Decidable (dateLE a b) := by
  unfold dateLE; exact inferInstance

/-- A timestamp, modelling Python `datetime.datetime`: a calendar date and a
time of day.  The program immediately truncates it with `.date()`. -/
@[ext]
structure DateTime where
  date : Date
  tunti : Nat
  minuutti : Nat
  sekunti : Nat
deriving DecidableEq, Repr

/-- One parsed input row (the dicts appended by `lue_data`): a calendar day, a
3-tuple of consumption values and a 3-tuple of production values, in
watt-hours. -/
@[ext]
structure Mittaus where
  paiva : Date
  kulutus : ℚ × ℚ × ℚ
  tuotanto : ℚ × ℚ × ℚ
deriving DecidableEq, Repr

/-- Per-day totals, the values of both dictionaries built by
`laske_paivasummat`: a 3-tuple of consumption values and a 3-tuple of
production values (watt-hours in the accumulation dict, kilowatt-hours in the
result dict). -/
@[ext]
structure PaivaSummat where
  kulutus : ℚ × ℚ × ℚ
  tuotanto : ℚ × ℚ × ℚ
deriving DecidableEq, Repr

/-- The zero record `{"kulutus_wh": [0.0, 0.0, 0.0], "tuotanto_wh": [0.0, 0.0, 0.0]}`
installed when a day is first seen. -/
def nollaSummat : PaivaSummat :=
  ⟨(0, 0, 0), (0, 0, 0)⟩

/-- The in-place phase-wise `+=` loop of `laske_paivasummat` for one row. -/
def lisaaSummaan (s : PaivaSummat) (m : Mittaus) : PaivaSummat :=
  ⟨(s.kulutus.1 + m.kulutus.1, s.kulutus.2.1 + m.kulutus.2.1,
      s.kulutus.2.2 + m.kulutus.2.2),
    (s.tuotanto.1 + m.tuotanto.1, s.tuotanto.2.1 + m.tuotanto.2.1,
      s.tuotanto.2.2 + m.tuotanto.2.2)⟩

/-- Phase-wise sum of two totals records. -/
def yhdista (a b : PaivaSummat) : PaivaSummat :=
  ⟨(a.kulutus.1 + b.kulutus.1, a.kulutus.2.1 + b.kulutus.2.1,
      a.kulutus.2.2 + b.kulutus.2.2),
    (a.tuotanto.1 + b.tuotanto.1, a.tuotanto.2.1 + b.tuotanto.2.1,
      a.tuotanto.2.2 + b.tuotanto.2.2)⟩

/-- The dictionaries of `laske_paivasummat`, as insertion-ordered association
lists from day to totals. -/
abbrev PaivaKartta := List (Date × PaivaSummat)

/-- Dictionary lookup `kartta[paiva]`, extensional meaning of a Python dict. -/
def lookupDay (d : Date) : PaivaKartta → Option PaivaSummat
  | [] => none
  | (d', s) :: rest => if d' = d then some s else lookupDay d rest

/-- The keys of the dictionary, in insertion order (`kartta.keys()`). -/
def avaimet (kartta : PaivaKartta) : List Date :=
  kartta.map Prod.fst

/-- One iteration of the accumulation loop of `laske_paivasummat`: if the row's
day is absent, install zeros (then add); otherwise add into the existing
 entry.  A fresh day is appended at the end, as Python dict insertion does. -/
def lisaaMittaus : PaivaKartta → Mittaus → PaivaKartta
  | [], m => [(m.paiva, lisaaSummaan nollaSummat m)]
  | (d, s) :: rest, m =>
      if d = m.paiva then (d, lisaaSummaan s m) :: rest
      else (d, s) :: lisaaMittaus rest m

/-- The watt-hour accumulation dictionary `paiva_summat_wh` after the first
loop of `laske_paivasummat`. -/
def kertymatWh (mittaukset : List Mittaus) : PaivaKartta :=
  mittaukset.foldl lisaaMittaus []

/-- The `x / 1000.0` conversion applied to every phase of a day's totals in the
second loop of `laske_paivasummat`. -/
def jaaTuhannella (s : PaivaSummat) : PaivaSummat :=
  ⟨(s.kulutus.1 / 1000, s.kulutus.2.1 / 1000, s.kulutus.2.2 / 1000),
    (s.tuotanto.1 / 1000, s.tuotanto.2.1 / 1000, s.tuotanto.2.2 / 1000)⟩

/-- Python `laske_paivasummat`: accumulate watt-hour sums per day, then build the
kilowatt-hour dictionary by dividing every summed phase value by 1000. -/
def laske_paivasummat (mittaukset : List Mittaus) : PaivaKartta :=
  (kertymatWh mittaukset).map (fun p => (p.1, jaaTuhannella p.2))

/-- The phase-wise watt-hour sums, over the rows of one day, that the claims
compare the code against (specification-side definition). -/
def summaPaivalta (d : Date) (ms : List Mittaus) : PaivaSummat :=
  ⟨((((ms.filter fun m => m.paiva = d).map fun m => m.kulutus.1).sum,
      ((ms.filter fun m => m.paiva = d).map fun m => m.kulutus.2.1).sum,
      ((ms.filter fun m => m.paiva = d).map fun m => m.kulutus.2.2).sum)),
    ((((ms.filter fun m => m.paiva = d).map fun m => m.tuotanto.1).sum,
      ((ms.filter fun m => m.paiva = d).map fun m => m.tuotanto.2.1).sum,
      ((ms.filter fun m => m.paiva = d).map fun m => m.tuotanto.2.2).sum))⟩

/-! ### Loader (`lue_data`)

The loader iterates the rows produced by `csv.DictReader`, reads the `Aika`
field through `datetime.fromisoformat`, truncates it to its calendar date,
reads the six energy fields through `float`, and appends one measurement per
row.  Any missing field or failed conversion raises, aborting the whole run.

`float` and `datetime.fromisoformat` are Python standard-library functions,
not code of this repository; they are modelled as abstract parsers
(`Jasentimet`) that either produce a value or fail. -/

/-- One CSV data row as `csv.DictReader` yields it: field name to raw string.
A missing required field has no entry. -/
abbrev Rivi := List (String × String)

/-- Dictionary access `rivi[nimi]`, extensionally. -/
def haeKentta (nimi : String) (rivi : Rivi) : Option String :=
  (rivi.find? fun p => p.1 = nimi).map Prod.snd

/-- Abstract parsers for the standard-library conversions used by `lue_data`:
`fromisoformat` models `datetime.fromisoformat` (fails on a malformed
timestamp), `floatLit` models `float` (fails on a non-numeric string). -/
structure Jasentimet where
  fromisoformat : String → Option DateTime
  floatLit : String → Option ℚ

/-- The parse failures `lue_data` can raise: missing field (`KeyError`),
non-numeric energy value (`ValueError` from `float`), malformed timestamp
(`ValueError` from `fromisoformat`). -/
inductive ParseVirhe where
  | puuttuvaKentta : String → ParseVirhe
  | virheellinenLuku : String → String → ParseVirhe
  | virheellinenAika : String → ParseVirhe
deriving DecidableEq, Repr

/-- Python `float(rivi[nimi])`: field access then numeric conversion, either of which
may raise. -/
def lueLuku (J : Jasentimet) (rivi : Rivi) (nimi : String) :
    Except ParseVirhe ℚ :=
  match haeKentta nimi rivi with
  | none => .error (.puuttuvaKentta nimi)
  | some s =>
      match J.floatLit s with
      | none => .error (.virheellinenLuku nimi s)
      | some x => .ok x

/-- Python `datetime.fromisoformat(rivi["Aika"])`. -/
def lueAika (J : Jasentimet) (rivi : Rivi) : Except ParseVirhe DateTime :=
  match haeKentta "Aika" rivi with
  | none => .error (.puuttuvaKentta "Aika")
  | some s =>
      match J.fromisoformat s with
      | none => .error (.virheellinenAika s)
      | some aika => .ok aika

/-- The six required energy field names, in the order `lue_data` reads them. -/
def energiaKentat : List String :=
  ["Kulutus vaihe 1 Wh", "Kulutus vaihe 2 Wh", "Kulutus vaihe 3 Wh",
   "Tuotanto vaihe 1 Wh", "Tuotanto vaihe 2 Wh", "Tuotanto vaihe 3 Wh"]

/-- The body of `lue_data`'s loop for one row: parse the timestamp, truncate
to its date, parse the six energy values, build the measurement. -/
def parsiRivi (J : Jasentimet) (rivi : Rivi) : Except ParseVirhe Mittaus := do
  let aika ← lueAika J rivi
  let paiva := aika.date
  let kulutus_v1 ← lueLuku J rivi "Kulutus vaihe 1 Wh"
  let kulutus_v2 ← lueLuku J rivi "Kulutus vaihe 2 Wh"
  let kulutus_v3 ← lueLuku J rivi "Kulutus vaihe 3 Wh"
  let tuotanto_v1 ← lueLuku J rivi "Tuotanto vaihe 1 Wh"
  let tuotanto_v2 ← lueLuku J rivi "Tuotanto vaihe 2 Wh"
  let tuotanto_v3 ← lueLuku J rivi "Tuotanto vaihe 3 Wh"
  pure { paiva := paiva,
         kulutus := (kulutus_v1, kulutus_v2, kulutus_v3),
         tuotanto := (tuotanto_v1, tuotanto_v2, tuotanto_v3) }

/-- Python `lue_data` over the sequence of data rows: append one measurement per row;
the first raised error aborts the loop and propagates, so no partial list is
ever returned. -/
def lue_data (J : Jasentimet) : List Rivi → Except ParseVirhe (List Mittaus)
  | [] => .ok []
  | rivi :: loput => do
      let mittaus ← parsiRivi J rivi
      let muut ← lue_data J loput
      pure (mittaus :: muut)

/-! ### Formatting helpers -/

/-- The decimal digit character for `n % 10`. -/
def numeroMerkki (n : Nat) : Char :=
  Char.ofNat (48 + n % 10)

/-- Decimal digits with explicit fuel (the fuel only bounds the recursion
depth; `n` itself is always enough fuel). -/
def natKirjaimetAux : Nat → Nat → List Char
  | 0, n => [numeroMerkki n]
  | fuel + 1, n =>
      if n < 10 then [numeroMerkki n]
      else natKirjaimetAux fuel (n / 10) ++ [numeroMerkki n]

/-- Decimal digits of `n`, most significant first (`"0"` for 0), as rendered
by Python string formatting of an integer part. -/
def natKirjaimet (n : Nat) : List Char :=
  natKirjaimetAux n n

/-- Round-half-to-even to an integer, the rounding Python's `format` applies
to the value's decimal expansion.  Stated on the numerator: with `n = ⌊q⌋`
the fractional part is `q - n = j / q.den` where `j = q.num - n * q.den` and
`0 ≤ j < q.den`, so `q - n < 1/2` iff `2 * j < q.den`. -/
def roundHalfEven (q : ℚ) : Int :=
  let n := ⌊q⌋
  let j := q.num - n * (q.den : Int)
  if 2 * j < (q.den : Int) then n
  else if (q.den : Int) < 2 * j then n + 1
  else if n % 2 = 0 then n else n + 1

/-- Python `f"{arvo:.2f}"`: sign, integer part, `'.'`, exactly two fraction digits,
the value rounded to the nearest hundredth (ties to even). -/
def kaksiDesimaalia (arvo : ℚ) : String :=
  let senttia := (roundHalfEven (arvo * 100)).natAbs
  let merkki : List Char := if arvo < 0 then ['-'] else []
  String.mk
    (merkki ++ natKirjaimet (senttia / 100) ++
      ['.', numeroMerkki (senttia / 10), numeroMerkki senttia])

/-- Python `arvo_str.replace(".", ",")`: with a one-character pattern, Python's
`str.replace` replaces each occurrence of that character. -/
def korvaaPisteet (s : String) : String :=
  String.mk (s.toList.map fun c => if c = '.' then ',' else c)

/-- Python `muotoile_kwh`: format with two decimals, then swap `.` for `,`. -/
def muotoile_kwh (arvo : ℚ) : String :=
  korvaaPisteet (kaksiDesimaalia arvo)

/-- Python `muotoile_pvm`: rendering `pv.kk.vvvv` with unpadded components. -/
def muotoile_pvm (paiva : Date) : String :=
  String.mk (natKirjaimet paiva.day) ++ "." ++
    String.mk (natKirjaimet paiva.month) ++ "." ++
    String.mk (natKirjaimet paiva.year)

/-- The fixed list `nimet` of Finnish weekday names, Monday first. -/
def viikonpaivat : List String :=
  ["maanantai", "tiistai", "keskiviikko", "torstai", "perjantai",
   "lauantai", "sunnuntai"]

/-- Python `viikonpaivan_nimi`: index the fixed name list by `paiva.weekday()`.
(Python list indexing would raise out of bounds; the default is never
reached since the weekday is always 0..6, see the safety theorem.) -/
def viikonpaivan_nimi (paiva : Date) : String :=
  viikonpaivat.getD paiva.weekday ""

/-! ### Reporter (`tulosta_raportti`)

Modelled as the list of lines the function prints. -/

/-- Left-justify to width `w` with spaces (`f"{s:<w}"`; no truncation). -/
def tasaaVasen (s : String) (w : Nat) : String :=
  s ++ String.mk (List.replicate (w - s.length) ' ')

/-- Right-justify to width `w` with spaces (`f"{s:>w}"`; no truncation). -/
def tasaaOikea (s : String) (w : Nat) : String :=
  String.mk (List.replicate (w - s.length) ' ') ++ s

/-- The header block: title, column headers, and the 80-dash divider. -/
def otsikkorivit : List String :=
  ["Viikon 42 sähkönkulutus ja tuotanto\n",
   tasaaVasen "Päivä" 12 ++ " " ++ tasaaVasen "Pvm" 12 ++ " " ++
     tasaaOikea "Kulutus [kWh]" 26 ++ " " ++ tasaaOikea "Tuotanto [kWh]" 26,
   tasaaVasen "" 12 ++ " " ++ tasaaVasen "(pv.kk.vvvv)" 12 ++
     tasaaOikea "v1" 8 ++ tasaaOikea "v2" 8 ++ tasaaOikea "v3" 8 ++ " " ++
     tasaaOikea "v1" 8 ++ tasaaOikea "v2" 8 ++ tasaaOikea "v3" 8,
   String.mk (List.replicate 80 '-')]

/-- One printed data row for day `paiva` with totals `s`: weekday name,
date, six formatted kWh values. -/
def raportinRivi (paiva : Date) (s : PaivaSummat) : String :=
  tasaaVasen (viikonpaivan_nimi paiva) 12 ++ " " ++
    tasaaVasen (muotoile_pvm paiva) 12 ++
    tasaaOikea (muotoile_kwh s.kulutus.1) 8 ++
    tasaaOikea (muotoile_kwh s.kulutus.2.1) 8 ++
    tasaaOikea (muotoile_kwh s.kulutus.2.2) 8 ++
    tasaaOikea (muotoile_kwh s.tuotanto.1) 8 ++
    tasaaOikea (muotoile_kwh s.tuotanto.2.1) 8 ++
    tasaaOikea (muotoile_kwh s.tuotanto.2.2) 8

/-- Python `tulosta_raportti`: the header block, then one row per day, iterating the
keys in sorted order and looking each day's totals up in the dictionary.
(The lookup always succeeds because the iterated days are exactly the keys;
Python would raise `KeyError` otherwise, hence the empty default.) -/
def tulosta_raportti (paiva_summat : PaivaKartta) : List String :=
  otsikkorivit ++
    (List.insertionSort dateLE (avaimet paiva_summat)).map fun paiva =>
      match lookupDay paiva paiva_summat with
      | some s => raportinRivi paiva s
      | none => ""

/-! ### Character-level facts about the number formatter -/

lemma numeroMerkki_isDigit (n : Nat) : (numeroMerkki n).isDigit = true := by
  have h : n % 10 < 10 := Nat.mod_lt _ (by norm_num)
  unfold numeroMerkki
  revert h; generalize n % 10 = k; intro h
  interval_cases k <;> decide

lemma isDigit_ne_piste {c : Char} (h : c.isDigit = true) : c ≠ '.' := by
  intro he; rw [he] at h; exact absurd h (by decide)

lemma natKirjaimetAux_isDigit :
    ∀ fuel n c, c ∈ natKirjaimetAux fuel n → c.isDigit = true := by
  intro fuel
  induction fuel with
  | zero =>
      intro n c hc
      simp [natKirjaimetAux] at hc; subst hc; exact numeroMerkki_isDigit n
  | succ fuel ih =>
      intro n c hc
      unfold natKirjaimetAux at hc
      by_cases h : n < 10
      · rw [if_pos h] at hc; simp at hc; subst hc; exact numeroMerkki_isDigit n
      · rw [if_neg h] at hc
        rcases List.mem_append.1 hc with h1 | h2
        · exact ih _ _ h1
        · simp at h2; subst h2; exact numeroMerkki_isDigit n

lemma natKirjaimet_isDigit (n : Nat) :
    ∀ c ∈ natKirjaimet n, c.isDigit = true :=
  fun c hc => natKirjaimetAux_isDigit n n c hc

lemma natKirjaimetAux_ne_nil (fuel n : Nat) : natKirjaimetAux fuel n ≠ [] := by
  cases fuel with
  | zero => simp [natKirjaimetAux]
  | succ fuel => unfold natKirjaimetAux; split <;> simp

/-- Unfolded character sequence of `muotoile_kwh`: optional sign, digits of
the whole part, a comma, and exactly the two fraction digits. -/
lemma muotoile_kwh_toList (arvo : ℚ) :
    (muotoile_kwh arvo).toList =
      (if arvo < 0 then ['-'] else []) ++
        natKirjaimet ((roundHalfEven (arvo * 100)).natAbs / 100) ++
        [',', numeroMerkki ((roundHalfEven (arvo * 100)).natAbs / 10),
          numeroMerkki (roundHalfEven (arvo * 100)).natAbs] := by
  unfold muotoile_kwh korvaaPisteet kaksiDesimaalia
  show ((if arvo < 0 then ['-'] else []) ++
      natKirjaimet ((roundHalfEven (arvo * 100)).natAbs / 100) ++
      ['.', numeroMerkki ((roundHalfEven (arvo * 100)).natAbs / 10),
        numeroMerkki (roundHalfEven (arvo * 100)).natAbs]).map
      (fun c => if c = '.' then ',' else c) = _
  rw [List.map_append, List.map_append]
  congr 1
  · congr 1
    · by_cases h : arvo < 0 <;> simp [h]
    · refine ((List.map_congr_left ?_).trans (List.map_id _))
      intro c hc
      exact if_neg (isDigit_ne_piste (natKirjaimet_isDigit _ c hc))
  · have h1 : numeroMerkki ((roundHalfEven (arvo * 100)).natAbs / 10) ≠ '.' :=
      isDigit_ne_piste (numeroMerkki_isDigit _)
    have h2 : numeroMerkki (roundHalfEven (arvo * 100)).natAbs ≠ '.' :=
      isDigit_ne_piste (numeroMerkki_isDigit _)
    simp [h1, h2]

/-- C7: `muotoile_kwh` always renders an optional minus sign, a nonempty
string of whole-part digits, a comma, and exactly two fraction digits; in
particular `1.5` renders as `"1,50"` and `0` as `"0,00"`. -/
theorem muotoile_kwh_muoto :
    (∀ arvo : ℚ, ∃ etu kok : List Char, ∃ d1 d2 : Char,
        (muotoile_kwh arvo).toList = etu ++ kok ++ [',', d1, d2] ∧
        (etu = [] ∨ etu = ['-']) ∧ kok ≠ [] ∧
        (∀ c ∈ kok, c.isDigit = true) ∧ d1.isDigit = true ∧ d2.isDigit = true) ∧
    muotoile_kwh (3 / 2) = "1,50" ∧ muotoile_kwh 0 = "0,00" := by
  refine ⟨?_, ?_, ?_⟩
  · intro arvo
    refine ⟨if arvo < 0 then ['-'] else [],
      natKirjaimet ((roundHalfEven (arvo * 100)).natAbs / 100),
      numeroMerkki ((roundHalfEven (arvo * 100)).natAbs / 10),
      numeroMerkki (roundHalfEven (arvo * 100)).natAbs,
      muotoile_kwh_toList arvo, ?_,
      natKirjaimetAux_ne_nil _ _, natKirjaimet_isDigit _,
      numeroMerkki_isDigit _, numeroMerkki_isDigit _⟩
    by_cases h : arvo < 0 <;> simp [h]
  · have h1 : (3 : ℚ) / 2 * 100 = 150 := by norm_num
    have h2 : ¬ ((3 : ℚ) / 2 < 0) := by norm_num
    unfold muotoile_kwh kaksiDesimaalia
    rw [h1, if_neg h2]
    decide
  · have h1 : (0 : ℚ) * 100 = 0 := by norm_num
    have h2 : ¬ ((0 : ℚ) < 0) := by norm_num
    unfold muotoile_kwh kaksiDesimaalia
    rw [h1, if_neg h2]
    decide

/-- C8: `viikonpaivan_nimi` indexes the fixed 7-element name list by the
date's weekday (0 = Monday .. 6 = Sunday), so a Monday renders
`"maanantai"` and a Sunday `"sunnuntai"`. -/
theorem viikonpaivan_nimi_maanantai_sunnuntai (d : Date) :
    viikonpaivat.length = 7 ∧
    viikonpaivan_nimi d = viikonpaivat.getD d.weekday "" ∧
    (d.weekday = 0 → viikonpaivan_nimi d = "maanantai") ∧
    (d.weekday = 6 → viikonpaivan_nimi d = "sunnuntai") := by
  refine ⟨rfl, rfl, ?_, ?_⟩
  · intro h; unfold viikonpaivan_nimi; rw [h]; rfl
  · intro h; unfold viikonpaivan_nimi; rw [h]; rfl

/-- Witness for C8: 2024-10-14 is a Monday and 2024-10-13 a Sunday, and they
render as `"maanantai"` and `"sunnuntai"`. -/
theorem viikonpaivan_nimi_maanantai_sunnuntai_witness :
    (Date.mk 2024 10 14).weekday = 0 ∧
    viikonpaivan_nimi (Date.mk 2024 10 14) = "maanantai" ∧
    (Date.mk 2024 10 13).weekday = 6 ∧
    viikonpaivan_nimi (Date.mk 2024 10 13) = "sunnuntai" :=
  ⟨by decide,
    (viikonpaivan_nimi_maanantai_sunnuntai (Date.mk 2024 10 14)).2.2.1 (by decide),
    by decide,
    (viikonpaivan_nimi_maanantai_sunnuntai (Date.mk 2024 10 13)).2.2.2 (by decide)⟩

/-- C10: `viikonpaivan_nimi` is total: the weekday index is always in
0..6, the list access is in bounds (never raises), and the result is one of
the seven Finnish names. -/
theorem viikonpaivan_nimi_turvallinen (d : Date) :
    d.weekday < 7 ∧
    viikonpaivat[d.weekday]? = some (viikonpaivan_nimi d) ∧
    viikonpaivan_nimi d ∈ viikonpaivat := by
  have h : d.weekday < 7 := Nat.mod_lt _ (by norm_num)
  refine ⟨h, ?_, ?_⟩
  · unfold viikonpaivan_nimi
    revert h; generalize d.weekday = i; intro h
    interval_cases i <;> rfl
  · unfold viikonpaivan_nimi
    revert h; generalize d.weekday = i; intro h
    interval_cases i <;> decide

/-! ### Aggregation lemmas -/

/-- The totals record carried by one measurement. -/
def mittausArvot (m : Mittaus) : PaivaSummat :=
  ⟨m.kulutus, m.tuotanto⟩

lemma lisaaSummaan_eq_yhdista (s : PaivaSummat) (m : Mittaus) :
    lisaaSummaan s m = yhdista s (mittausArvot m) := rfl

lemma yhdista_nolla_vasen (s : PaivaSummat) : yhdista nollaSummat s = s := by
  obtain ⟨⟨k1, k2, k3⟩, ⟨t1, t2, t3⟩⟩ := s
  simp [yhdista, nollaSummat]

lemma yhdista_nolla_oikea (s : PaivaSummat) : yhdista s nollaSummat = s := by
  obtain ⟨⟨k1, k2, k3⟩, ⟨t1, t2, t3⟩⟩ := s
  simp [yhdista, nollaSummat]

lemma yhdista_assoc (a b c : PaivaSummat) :
    yhdista (yhdista a b) c = yhdista a (yhdista b c) := by
  obtain ⟨⟨a1, a2, a3⟩, ⟨a4, a5, a6⟩⟩ := a
  obtain ⟨⟨b1, b2, b3⟩, ⟨b4, b5, b6⟩⟩ := b
  obtain ⟨⟨c1, c2, c3⟩, ⟨c4, c5, c6⟩⟩ := c
  simp [yhdista, add_assoc]

lemma summaPaivalta_nil (d : Date) : summaPaivalta d [] = nollaSummat := rfl

lemma summaPaivalta_cons (d : Date) (m : Mittaus) (ms : List Mittaus) :
    summaPaivalta d (m :: ms) =
      if m.paiva = d then yhdista (mittausArvot m) (summaPaivalta d ms)
      else summaPaivalta d ms := by
  by_cases h : m.paiva = d
  · simp [summaPaivalta, List.filter_cons, h, mittausArvot, yhdista]
  · simp [summaPaivalta, List.filter_cons, h]

lemma lookupDay_lisaaMittaus (acc : PaivaKartta) (m : Mittaus) (d : Date) :
    lookupDay d (lisaaMittaus acc m) =
      if m.paiva = d then
        some (lisaaSummaan ((lookupDay d acc).getD nollaSummat) m)
      else lookupDay d acc := by
  induction acc with
  | nil =>
      simp only [lisaaMittaus]
      by_cases h : m.paiva = d <;> simp [lookupDay, h]
  | cons p rest ih =>
      obtain ⟨d', s⟩ := p
      simp only [lisaaMittaus]
      by_cases h1 : d' = m.paiva
      · subst h1
        rw [if_pos rfl]
        by_cases h2 : m.paiva = d <;> simp [lookupDay, h2]
      · rw [if_neg h1]
        by_cases h2 : d' = d
        · subst h2
          have hmp : ¬ m.paiva = d' := fun he => h1 he.symm
          simp [lookupDay, hmp]
        · simp [lookupDay, h2, ih]

lemma lookupDay_foldl (ms : List Mittaus) (acc : PaivaKartta) (d : Date) :
    lookupDay d (ms.foldl lisaaMittaus acc) =
      match lookupDay d acc with
      | some s => some (yhdista s (summaPaivalta d ms))
      | none =>
          if d ∈ ms.map Mittaus.paiva then some (summaPaivalta d ms) else none := by
  induction ms generalizing acc with
  | nil =>
      cases h : lookupDay d acc with
      | some s => simp [h, summaPaivalta_nil, yhdista_nolla_oikea]
      | none => simp [h]
  | cons m rest ih =>
      rw [List.foldl_cons, ih, lookupDay_lisaaMittaus]
      by_cases hm : m.paiva = d
      · rw [if_pos hm]
        cases hacc : lookupDay d acc with
        | some s =>
            simp only [hacc, Option.getD_some, summaPaivalta_cons, if_pos hm]
            rw [lisaaSummaan_eq_yhdista, yhdista_assoc]
        | none =>
            have hd : d ∈ (m :: rest).map Mittaus.paiva := by simp [hm]
            simp only [hacc, Option.getD_none, summaPaivalta_cons, if_pos hm,
              if_pos hd]
            rw [lisaaSummaan_eq_yhdista, yhdista_nolla_vasen]
      · rw [if_neg hm]
        have hm' : ¬ d = m.paiva := fun he => hm he.symm
        have hmem : (d ∈ (m :: rest).map Mittaus.paiva) ↔
            (d ∈ rest.map Mittaus.paiva) := by
          simp [hm']
        cases hacc : lookupDay d acc with
        | some s => simp [hacc, summaPaivalta_cons, hm]
        | none =>
            simp only [hacc, summaPaivalta_cons, if_neg hm]
            by_cases hr : d ∈ rest.map Mittaus.paiva
            · rw [if_pos hr, if_pos (hmem.2 hr)]
            · rw [if_neg hr, if_neg (fun hc => hr (hmem.1 hc))]

lemma lookupDay_map_jaa (k : PaivaKartta) (d : Date) :
    lookupDay d (k.map fun p => (p.1, jaaTuhannella p.2)) =
      (lookupDay d k).map jaaTuhannella := by
  induction k with
  | nil => rfl
  | cons p rest ih =>
      obtain ⟨d', s⟩ := p
      by_cases h : d' = d <;> simp [lookupDay, h, ih]

/-- Characterisation of the aggregator: a day's entry exists iff the day
occurs in the input, in which case it is the phase-wise watt-hour sum over
that day's rows divided by 1000. -/
lemma lookupDay_laske (ms : List Mittaus) (d : Date) :
    lookupDay d (laske_paivasummat ms) =
      if d ∈ ms.map Mittaus.paiva then some (jaaTuhannella (summaPaivalta d ms))
      else none := by
  unfold laske_paivasummat kertymatWh
  rw [lookupDay_map_jaa, lookupDay_foldl]
  simp only [lookupDay]
  by_cases h : d ∈ ms.map Mittaus.paiva <;> simp [h]

lemma avaimet_cons (p : Date × PaivaSummat) (k : PaivaKartta) :
    avaimet (p :: k) = p.1 :: avaimet k := rfl

lemma lookupDay_isSome (k : PaivaKartta) (d : Date) :
    (lookupDay d k).isSome = true ↔ d ∈ avaimet k := by
  induction k with
  | nil => simp [lookupDay, avaimet]
  | cons p rest ih =>
      obtain ⟨d', s⟩ := p
      rw [avaimet_cons, List.mem_cons]
      by_cases h : d' = d
      · subst h; simp [lookupDay]
      · have h' : ¬ d = d' := fun he => h he.symm
        simp [lookupDay, h, h', ih]

lemma avaimet_laske (ms : List Mittaus) :
    avaimet (laske_paivasummat ms) = avaimet (kertymatWh ms) := by
  unfold laske_paivasummat avaimet
  rw [List.map_map]
  rfl

lemma avaimet_lisaaMittaus (acc : PaivaKartta) (m : Mittaus) :
    avaimet (lisaaMittaus acc m) =
      if m.paiva ∈ avaimet acc then avaimet acc else avaimet acc ++ [m.paiva] := by
  induction acc with
  | nil => simp [lisaaMittaus, avaimet]
  | cons p rest ih =>
      obtain ⟨d', s⟩ := p
      simp only [lisaaMittaus]
      by_cases h : d' = m.paiva
      · subst h; simp [avaimet]
      · have h' : ¬ m.paiva = d' := fun he => h he.symm
        rw [if_neg h]
        show d' :: avaimet (lisaaMittaus rest m) = _
        rw [ih, avaimet_cons]
        by_cases h2 : m.paiva ∈ avaimet rest
        · rw [if_pos h2,
            if_pos (show m.paiva ∈ d' :: avaimet rest from
              List.mem_cons_of_mem _ h2)]
        · have hei : m.paiva ∉ d' :: avaimet rest := by
            intro hc
            rcases List.mem_cons.1 hc with hc1 | hc2
            · exact h' hc1
            · exact h2 hc2
          rw [if_neg h2, if_neg hei]
          rfl

lemma avaimet_nodup_lisaa (acc : PaivaKartta) (m : Mittaus)
    (h : (avaimet acc).Nodup) : (avaimet (lisaaMittaus acc m)).Nodup := by
  rw [avaimet_lisaaMittaus]
  by_cases hmem : m.paiva ∈ avaimet acc
  · rw [if_pos hmem]; exact h
  · rw [if_neg hmem]
    simp [List.nodup_append, h, hmem]

lemma avaimet_kertymat_nodup (ms : List Mittaus) :
    (avaimet (kertymatWh ms)).Nodup := by
  have hyl : ∀ (ms : List Mittaus) (acc : PaivaKartta), (avaimet acc).Nodup →
      (avaimet (ms.foldl lisaaMittaus acc)).Nodup := by
    intro ms
    induction ms with
    | nil => intro acc h; simpa using h
    | cons m rest ih =>
        intro acc h
        rw [List.foldl_cons]
        exact ih _ (avaimet_nodup_lisaa _ _ h)
  exact hyl ms [] (by simp [avaimet])

/-- C5: the empty list of measurements aggregates to the empty mapping, and
the report over the empty mapping is just the header block: not an error. -/
theorem tyhja_syote_tyhja_raportti :
    laske_paivasummat [] = [] ∧ tulosta_raportti [] = otsikkorivit := by
  constructor
  · rfl
  · simp [tulosta_raportti, avaimet, List.insertionSort]

/-- C9: the keys of the aggregated mapping are exactly the distinct days of
the input (a day is a key iff some measurement carries it, with no duplicate
keys), and every entry is a record of one consumption 3-tuple and one
production 3-tuple (enforced by the `PaivaSummat` type). -/
theorem laske_paivasummat_avaimet (ms : List Mittaus) :
    (∀ d : Date, d ∈ avaimet (laske_paivasummat ms) ↔ ∃ m ∈ ms, m.paiva = d) ∧
    (avaimet (laske_paivasummat ms)).Nodup ∧
    (∀ p ∈ laske_paivasummat ms,
      ∃ kul tuo : ℚ × ℚ × ℚ, p.2 = PaivaSummat.mk kul tuo) := by
  refine ⟨?_, ?_, ?_⟩
  · intro d
    rw [← lookupDay_isSome, lookupDay_laske]
    by_cases h : d ∈ ms.map Mittaus.paiva
    · rw [if_pos h]
      simp only [Option.isSome_some, true_iff]
      simpa [List.mem_map, eq_comm] using h
    · rw [if_neg h]
      simp only [Option.isSome_none, Bool.false_eq_true, false_iff]
      intro hc
      exact h (by simpa [List.mem_map, eq_comm] using hc)
  · rw [avaimet_laske]; exact avaimet_kertymat_nodup ms
  · intro p _; exact ⟨p.2.kulutus, p.2.tuotanto, rfl⟩

/-- C1: each day present in the aggregation maps to totals in which every
consumption and production phase is the phase-wise sum of that day's raw
watt-hour values, divided by 1000 once, after the summation. -/
theorem laske_paivasummat_summat (ms : List Mittaus) (d : Date)
    (h : d ∈ avaimet (laske_paivasummat ms)) :
    lookupDay d (laske_paivasummat ms) =
      some ⟨(((ms.filter fun m => m.paiva = d).map fun m => m.kulutus.1).sum / 1000,
             ((ms.filter fun m => m.paiva = d).map fun m => m.kulutus.2.1).sum / 1000,
             ((ms.filter fun m => m.paiva = d).map fun m => m.kulutus.2.2).sum / 1000),
            (((ms.filter fun m => m.paiva = d).map fun m => m.tuotanto.1).sum / 1000,
             ((ms.filter fun m => m.paiva = d).map fun m => m.tuotanto.2.1).sum / 1000,
             ((ms.filter fun m => m.paiva = d).map fun m => m.tuotanto.2.2).sum / 1000)⟩ := by
  have hm : d ∈ ms.map Mittaus.paiva := by
    have h2 := (lookupDay_isSome (laske_paivasummat ms) d).2 h
    rw [lookupDay_laske] at h2
    by_contra hc
    simp [hc] at h2
  rw [lookupDay_laske, if_pos hm]
  rfl

/-- Two rows on 2024-10-14 used to exercise the aggregation theorems. -/
def esimerkkiMittaukset : List Mittaus :=
  [⟨⟨2024, 10, 14⟩, (500, 1, 2), (3, 4, 5)⟩,
   ⟨⟨2024, 10, 14⟩, (1500, 10, 20), (30, 40, 50)⟩]

/-- Witness for C1 on a concrete two-row day. -/
theorem laske_paivasummat_summat_witness :
    (Date.mk 2024 10 14) ∈ avaimet (laske_paivasummat esimerkkiMittaukset) ∧
    lookupDay (Date.mk 2024 10 14) (laske_paivasummat esimerkkiMittaukset) =
      some ⟨(((esimerkkiMittaukset.filter fun m => m.paiva = Date.mk 2024 10 14).map
                fun m => m.kulutus.1).sum / 1000,
             ((esimerkkiMittaukset.filter fun m => m.paiva = Date.mk 2024 10 14).map
                fun m => m.kulutus.2.1).sum / 1000,
             ((esimerkkiMittaukset.filter fun m => m.paiva = Date.mk 2024 10 14).map
                fun m => m.kulutus.2.2).sum / 1000),
            (((esimerkkiMittaukset.filter fun m => m.paiva = Date.mk 2024 10 14).map
                fun m => m.tuotanto.1).sum / 1000,
             ((esimerkkiMittaukset.filter fun m => m.paiva = Date.mk 2024 10 14).map
                fun m => m.tuotanto.2.1).sum / 1000,
             ((esimerkkiMittaukset.filter fun m => m.paiva = Date.mk 2024 10 14).map
                fun m => m.tuotanto.2.2).sum / 1000)⟩ :=
  ⟨by decide,
    laske_paivasummat_summat esimerkkiMittaukset (Date.mk 2024 10 14) (by decide)⟩

/-- C2: permuting the input rows leaves the aggregated mapping unchanged:
every day looks up to the same totals, because the per-day sums are
order-independent. -/
theorem laske_paivasummat_permutaatio (ms ms' : List Mittaus)
    (h : ms.Perm ms') (d : Date) :
    lookupDay d (laske_paivasummat ms) = lookupDay d (laske_paivasummat ms') := by
  rw [lookupDay_laske, lookupDay_laske]
  have hmem : (d ∈ ms.map Mittaus.paiva) ↔ (d ∈ ms'.map Mittaus.paiva) :=
    (h.map _).mem_iff
  have hs : ∀ f : Mittaus → ℚ,
      ((ms.filter fun m => m.paiva = d).map f).sum =
        ((ms'.filter fun m => m.paiva = d).map f).sum :=
    fun f => ((h.filter _).map f).sum_eq
  have hsum : summaPaivalta d ms = summaPaivalta d ms' := by
    unfold summaPaivalta
    rw [hs, hs, hs, hs, hs, hs]
  by_cases hd : d ∈ ms.map Mittaus.paiva
  · rw [if_pos hd, if_pos (hmem.1 hd), hsum]
  · rw [if_neg hd, if_neg (fun hc => hd (hmem.2 hc))]

/-- The two example rows in the opposite order. -/
def esimerkkiMittauksetKaannetty : List Mittaus :=
  [⟨⟨2024, 10, 14⟩, (1500, 10, 20), (30, 40, 50)⟩,
   ⟨⟨2024, 10, 14⟩, (500, 1, 2), (3, 4, 5)⟩]

/-- Witness for C2: swapping the two rows leaves the day's lookup equal. -/
theorem laske_paivasummat_permutaatio_witness :
    lookupDay (Date.mk 2024 10 14) (laske_paivasummat esimerkkiMittaukset) =
      lookupDay (Date.mk 2024 10 14)
        (laske_paivasummat esimerkkiMittauksetKaannetty) :=
  laske_paivasummat_permutaatio esimerkkiMittaukset esimerkkiMittauksetKaannetty
    (show ([⟨⟨2024, 10, 14⟩, (500, 1, 2), (3, 4, 5)⟩,
            ⟨⟨2024, 10, 14⟩, (1500, 10, 20), (30, 40, 50)⟩] : List Mittaus).Perm
        [⟨⟨2024, 10, 14⟩, (1500, 10, 20), (30, 40, 50)⟩,
         ⟨⟨2024, 10, 14⟩, (500, 1, 2), (3, 4, 5)⟩] from
      List.Perm.swap _ _ _)
    (Date.mk 2024 10 14)

/-! ### Date ordering facts for the reporter -/

lemma dateLE_iff (a b : Date) :
    dateLE a b ↔
      (a.year < b.year ∨
        (a.year = b.year ∧
          (a.month < b.month ∨ (a.month = b.month ∧ a.day ≤ b.day)))) := by
  unfold dateLE dateLT
  rw [Date.ext_iff]
  omega

instance : IsTrans Date dateLE :=
  ⟨by intro a b c hab hbc; rw [dateLE_iff] at hab hbc ⊢; omega⟩

instance : IsTotal Date dateLE :=
  ⟨by intro a b; rw [dateLE_iff, dateLE_iff]; omega⟩

instance : IsAntisymm Date dateLE :=
  ⟨by
    intro a b hab hba
    rw [dateLE_iff] at hab hba
    ext <;> omega⟩

lemma dateLT_of_le_ne {a b : Date} (h : dateLE a b) (hne : a ≠ b) :
    dateLT a b := by
  rcases h with h | rfl
  · exact h
  · exact absurd rfl hne

/-- C6: the report is the header block followed by exactly one row per key of
the mapping, the rows listed in strictly ascending calendar-date order; and
the output does not depend on the order in which days were inserted (any
mapping with the same keys and the same lookups prints identically). -/
theorem tulosta_raportti_jarjestetty (kartta kartta' : PaivaKartta)
    (h : (avaimet kartta).Nodup) (_h2 : (avaimet kartta').Nodup)
    (hperm : (avaimet kartta').Perm (avaimet kartta))
    (hlook : ∀ d, lookupDay d kartta' = lookupDay d kartta) :
    ∃ paivat : List Date,
      paivat.Perm (avaimet kartta) ∧
      List.Chain' dateLT paivat ∧
      tulosta_raportti kartta =
        otsikkorivit ++ paivat.map (fun paiva =>
          match lookupDay paiva kartta with
          | some s => raportinRivi paiva s
          | none => "") ∧
      tulosta_raportti kartta' = tulosta_raportti kartta := by
  refine ⟨List.insertionSort dateLE (avaimet kartta),
    List.perm_insertionSort _ _, ?_, rfl, ?_⟩
  · have hs : List.Sorted dateLE (List.insertionSort dateLE (avaimet kartta)) :=
      List.sorted_insertionSort dateLE _
    have hnd : (List.insertionSort dateLE (avaimet kartta)).Nodup :=
      ((List.perm_insertionSort dateLE _).nodup_iff).2 h
    have hp : List.Pairwise dateLT (List.insertionSort dateLE (avaimet kartta)) :=
      (hs.and hnd).imp fun hab => dateLT_of_le_ne hab.1 hab.2
    exact hp.chain'
  · unfold tulosta_raportti
    have hsq : List.insertionSort dateLE (avaimet kartta') =
        List.insertionSort dateLE (avaimet kartta) :=
      List.eq_of_perm_of_sorted
        ((List.perm_insertionSort _ _).trans
          (hperm.trans (List.perm_insertionSort _ _).symm))
        (List.sorted_insertionSort _ _) (List.sorted_insertionSort _ _)
    rw [hsq]
    congr 1
    apply List.map_congr_left
    intro pv _
    rw [hlook pv]

/-- A concrete two-day mapping, inserted out of date order. -/
def esimerkkiKartta : PaivaKartta :=
  [(⟨2024, 10, 15⟩, ⟨(1, 2, 3), (4, 5, 6)⟩),
   (⟨2024, 10, 14⟩, ⟨(7, 8, 9), (1, 1, 1)⟩)]

/-- Witness for C6 on the concrete mapping. -/
theorem tulosta_raportti_jarjestetty_witness :
    ∃ paivat : List Date,
      paivat.Perm (avaimet esimerkkiKartta) ∧
      List.Chain' dateLT paivat ∧
      tulosta_raportti esimerkkiKartta =
        otsikkorivit ++ paivat.map (fun paiva =>
          match lookupDay paiva esimerkkiKartta with
          | some s => raportinRivi paiva s
          | none => "") ∧
      tulosta_raportti esimerkkiKartta = tulosta_raportti esimerkkiKartta :=
  tulosta_raportti_jarjestetty esimerkkiKartta esimerkkiKartta
    (by decide) (by decide) (List.Perm.refl _) (fun _ => rfl)

/-! ### Loader lemmas -/

lemma except_bind_ok {ε α β : Type} {x : Except ε α} {f : α → Except ε β}
    {b : β} (h : x.bind f = .ok b) : ∃ a, x = .ok a ∧ f a = .ok b := by
  cases x with
  | error e => exact absurd h (by simp [Except.bind])
  | ok a => exact ⟨a, rfl, h⟩

lemma lueAika_ok {J : Jasentimet} {rivi : Rivi} {aika : DateTime}
    (h : lueAika J rivi = .ok aika) :
    ∃ s, haeKentta "Aika" rivi = some s ∧ J.fromisoformat s = some aika := by
  unfold lueAika at h
  cases hk : haeKentta "Aika" rivi with
  | none => rw [hk] at h; cases h
  | some s =>
      rw [hk] at h
      have h' : (match J.fromisoformat s with
          | none => Except.error (ParseVirhe.virheellinenAika s)
          | some aika => Except.ok aika) = Except.ok aika := h
      cases hp : J.fromisoformat s with
      | none => rw [hp] at h'; cases h'
      | some dt =>
          rw [hp] at h'
          cases h'
          exact ⟨s, rfl, hp⟩

lemma lueLuku_ok {J : Jasentimet} {rivi : Rivi} {nimi : String} {x : ℚ}
    (h : lueLuku J rivi nimi = .ok x) :
    ∃ s, haeKentta nimi rivi = some s ∧ J.floatLit s = some x := by
  unfold lueLuku at h
  cases hk : haeKentta nimi rivi with
  | none => rw [hk] at h; cases h
  | some s =>
      rw [hk] at h
      have h' : (match J.floatLit s with
          | none => Except.error (ParseVirhe.virheellinenLuku nimi s)
          | some x => Except.ok x) = Except.ok x := h
      cases hp : J.floatLit s with
      | none => rw [hp] at h'; cases h'
      | some y =>
          rw [hp] at h'
          cases h'
          exact ⟨s, rfl, hp⟩

lemma parsiRivi_ok_rakenne {J : Jasentimet} {rivi : Rivi} {m : Mittaus}
    (h : parsiRivi J rivi = .ok m) :
    ∃ aika k1 k2 k3 t1 t2 t3,
      lueAika J rivi = .ok aika ∧
      lueLuku J rivi "Kulutus vaihe 1 Wh" = .ok k1 ∧
      lueLuku J rivi "Kulutus vaihe 2 Wh" = .ok k2 ∧
      lueLuku J rivi "Kulutus vaihe 3 Wh" = .ok k3 ∧
      lueLuku J rivi "Tuotanto vaihe 1 Wh" = .ok t1 ∧
      lueLuku J rivi "Tuotanto vaihe 2 Wh" = .ok t2 ∧
      lueLuku J rivi "Tuotanto vaihe 3 Wh" = .ok t3 ∧
      m = ⟨aika.date, (k1, k2, k3), (t1, t2, t3)⟩ := by
  unfold parsiRivi at h
  obtain ⟨aika, h0, h⟩ := except_bind_ok h
  obtain ⟨k1, h1, h⟩ := except_bind_ok h
  obtain ⟨k2, h2, h⟩ := except_bind_ok h
  obtain ⟨k3, h3, h⟩ := except_bind_ok h
  obtain ⟨t1, h4, h⟩ := except_bind_ok h
  obtain ⟨t2, h5, h⟩ := except_bind_ok h
  obtain ⟨t3, h6, h⟩ := except_bind_ok h
  cases h
  exact ⟨aika, k1, k2, k3, t1, t2, t3, h0, h1, h2, h3, h4, h5, h6, rfl⟩

lemma parsiRivi_ei_ok {J : Jasentimet} {rivi : Rivi}
    (hbad : haeKentta "Aika" rivi = none
      ∨ (∃ s, haeKentta "Aika" rivi = some s ∧ J.fromisoformat s = none)
      ∨ (∃ nimi ∈ energiaKentat, haeKentta nimi rivi = none
          ∨ ∃ s, haeKentta nimi rivi = some s ∧ J.floatLit s = none)) :
    ∀ m, parsiRivi J rivi ≠ .ok m := by
  intro m hp
  obtain ⟨aika, k1, k2, k3, t1, t2, t3, h0, h1, h2, h3, h4, h5, h6, _⟩ :=
    parsiRivi_ok_rakenne hp
  obtain ⟨s0, hk0, hp0⟩ := lueAika_ok h0
  have contra : ∀ (nimi : String) (x : ℚ), lueLuku J rivi nimi = .ok x →
      (haeKentta nimi rivi = none
        ∨ ∃ s, haeKentta nimi rivi = some s ∧ J.floatLit s = none) → False := by
    intro nimi x hx hb
    obtain ⟨s', hk', hf'⟩ := lueLuku_ok hx
    rcases hb with hb | ⟨s, hs1, hs2⟩
    · rw [hb] at hk'; cases hk'
    · rw [hs1] at hk'
      injection hk' with he
      subst he
      rw [hf'] at hs2; cases hs2
  rcases hbad with hb | ⟨s, hs1, hs2⟩ | ⟨nimi, hmem, hb⟩
  · rw [hb] at hk0; cases hk0
  · rw [hs1] at hk0
    injection hk0 with he
    subst he
    rw [hp0] at hs2; cases hs2
  · simp only [energiaKentat, List.mem_cons, List.not_mem_nil, or_false] at hmem
    rcases hmem with rfl | rfl | rfl | rfl | rfl | rfl
    · exact contra _ _ h1 hb
    · exact contra _ _ h2 hb
    · exact contra _ _ h3 hb
    · exact contra _ _ h4 hb
    · exact contra _ _ h5 hb
    · exact contra _ _ h6 hb

lemma lue_data_virhe_jos_rivi {J : Jasentimet} {rivit : List Rivi} {rivi : Rivi}
    (hmem : rivi ∈ rivit) (hbad : ∀ m, parsiRivi J rivi ≠ .ok m) :
    ∃ e, lue_data J rivit = .error e := by
  induction rivit with
  | nil => cases hmem
  | cons r rs ih =>
      rcases List.mem_cons.1 hmem with rfl | hmem'
      · cases hp : parsiRivi J rivi with
        | error e => exact ⟨e, by unfold lue_data; rw [hp]; rfl⟩
        | ok m => exact absurd hp (hbad m)
      · cases hp : parsiRivi J r with
        | error e => exact ⟨e, by unfold lue_data; rw [hp]; rfl⟩
        | ok m =>
            obtain ⟨e, he⟩ := ih hmem'
            refine ⟨e, ?_⟩
            unfold lue_data
            rw [hp]
            show (do
              let muut ← lue_data J rs
              pure (m :: muut) : Except ParseVirhe (List Mittaus)) = .error e
            rw [he]
            rfl

/-- C3: a row with a missing required field, a non-numeric energy field, or a
malformed timestamp makes `lue_data` fail with a parse error that propagates:
the whole run returns an error and no (partial) list of measurements. -/
theorem lue_data_virhe_keskeyttaa (J : Jasentimet) (rivit : List Rivi)
    (rivi : Rivi) (hmem : rivi ∈ rivit)
    (hbad : haeKentta "Aika" rivi = none
      ∨ (∃ s, haeKentta "Aika" rivi = some s ∧ J.fromisoformat s = none)
      ∨ (∃ nimi ∈ energiaKentat, haeKentta nimi rivi = none
          ∨ ∃ s, haeKentta nimi rivi = some s ∧ J.floatLit s = none)) :
    (∃ e, lue_data J rivit = .error e) ∧
    ∀ ms, lue_data J rivit ≠ .ok ms := by
  obtain ⟨e, he⟩ := lue_data_virhe_jos_rivi hmem (parsiRivi_ei_ok hbad)
  refine ⟨⟨e, he⟩, ?_⟩
  intro ms hok
  rw [he] at hok
  cases hok

/-- Parsers that reject every string, exercising the failure path. -/
def virheJasentimet : Jasentimet :=
  ⟨fun _ => none, fun _ => none⟩

/-- Witness for C3: a single row whose timestamp does not parse aborts the
run with an error. -/
theorem lue_data_virhe_keskeyttaa_witness :
    (∃ e, lue_data virheJasentimet [[("Aika", "rikki")]] = .error e) ∧
    ∀ ms, lue_data virheJasentimet [[("Aika", "rikki")]] ≠ .ok ms :=
  lue_data_virhe_keskeyttaa virheJasentimet [[("Aika", "rikki")]]
    [("Aika", "rikki")] (by simp)
    (Or.inr (Or.inl ⟨"rikki", rfl, rfl⟩))

lemma lue_data_ok_rakenne {J : Jasentimet} {rivit : List Rivi}
    {ms : List Mittaus} (h : lue_data J rivit = .ok ms) :
    ms.length = rivit.length ∧
    ∀ (i : Nat) (rivi : Rivi), rivit[i]? = some rivi →
      ∃ m, parsiRivi J rivi = .ok m ∧ ms[i]? = some m := by
  induction rivit generalizing ms with
  | nil =>
      cases h
      exact ⟨rfl, fun i rivi hr => by simp at hr⟩
  | cons r rs ih =>
      unfold lue_data at h
      obtain ⟨m, hm, h⟩ := except_bind_ok h
      obtain ⟨ms', hms', h⟩ := except_bind_ok h
      cases h
      obtain ⟨hlen, hidx⟩ := ih hms'
      refine ⟨by simp [hlen], ?_⟩
      intro i rivi hr
      cases i with
      | zero =>
          simp only [List.getElem?_cons_zero, Option.some.injEq] at hr
          subst hr
          exact ⟨m, hm, by simp⟩
      | succ i =>
          simp only [List.getElem?_cons_succ] at hr ⊢
          exact hidx i rivi hr

/-- C4: on success `lue_data` returns exactly one measurement per data row in
file order: the `i`-th measurement's day is the `i`-th row's parsed timestamp
truncated to its calendar date, and its six energy values are the parsed
numeric fields of that row. -/
theorem lue_data_rivit (J : Jasentimet) (rivit : List Rivi) (ms : List Mittaus)
    (h : lue_data J rivit = .ok ms) :
    ms.length = rivit.length ∧
    ∀ (i : Nat) (rivi : Rivi), rivit[i]? = some rivi →
      ∃ aikaStr aika s1 s2 s3 s4 s5 s6 k1 k2 k3 t1 t2 t3,
        haeKentta "Aika" rivi = some aikaStr ∧
        J.fromisoformat aikaStr = some aika ∧
        haeKentta "Kulutus vaihe 1 Wh" rivi = some s1 ∧ J.floatLit s1 = some k1 ∧
        haeKentta "Kulutus vaihe 2 Wh" rivi = some s2 ∧ J.floatLit s2 = some k2 ∧
        haeKentta "Kulutus vaihe 3 Wh" rivi = some s3 ∧ J.floatLit s3 = some k3 ∧
        haeKentta "Tuotanto vaihe 1 Wh" rivi = some s4 ∧ J.floatLit s4 = some t1 ∧
        haeKentta "Tuotanto vaihe 2 Wh" rivi = some s5 ∧ J.floatLit s5 = some t2 ∧
        haeKentta "Tuotanto vaihe 3 Wh" rivi = some s6 ∧ J.floatLit s6 = some t3 ∧
        ms[i]? = some ⟨aika.date, (k1, k2, k3), (t1, t2, t3)⟩ := by
  obtain ⟨hlen, hidx⟩ := lue_data_ok_rakenne h
  refine ⟨hlen, ?_⟩
  intro i rivi hr
  obtain ⟨m, hm, hmi⟩ := hidx i rivi hr
  obtain ⟨aika, k1, k2, k3, t1, t2, t3, h0, h1, h2, h3, h4, h5, h6, rfl⟩ :=
    parsiRivi_ok_rakenne hm
  obtain ⟨a0, ha0, hb0⟩ := lueAika_ok h0
  obtain ⟨a1, ha1, hb1⟩ := lueLuku_ok h1
  obtain ⟨a2, ha2, hb2⟩ := lueLuku_ok h2
  obtain ⟨a3, ha3, hb3⟩ := lueLuku_ok h3
  obtain ⟨a4, ha4, hb4⟩ := lueLuku_ok h4
  obtain ⟨a5, ha5, hb5⟩ := lueLuku_ok h5
  obtain ⟨a6, ha6, hb6⟩ := lueLuku_ok h6
  exact ⟨a0, aika, a1, a2, a3, a4, a5, a6, k1, k2, k3, t1, t2, t3,
    ha0, hb0, ha1, hb1, ha2, hb2, ha3, hb3, ha4, hb4, ha5, hb5, ha6, hb6, hmi⟩

/-- Parsers that accept everything, exercising the success path: every
timestamp reads as 2024-10-14 00:15:00 and every number as 1500. -/
def okJasentimet : Jasentimet :=
  ⟨fun _ => some ⟨⟨2024, 10, 14⟩, 0, 15, 0⟩, fun _ => some 1500⟩

/-- A complete valid input row. -/
def esimerkkiRivi : Rivi :=
  [("Aika", "2024-10-14T00:15:00"),
   ("Kulutus vaihe 1 Wh", "1500"), ("Kulutus vaihe 2 Wh", "1500"),
   ("Kulutus vaihe 3 Wh", "1500"), ("Tuotanto vaihe 1 Wh", "1500"),
   ("Tuotanto vaihe 2 Wh", "1500"), ("Tuotanto vaihe 3 Wh", "1500")]

/-- Witness for C4 on one concrete valid row. -/
theorem lue_data_rivit_witness :
    ([(⟨⟨2024, 10, 14⟩, (1500, 1500, 1500), (1500, 1500, 1500)⟩ : Mittaus)].length
        = [esimerkkiRivi].length) ∧
    ∀ (i : Nat) (rivi : Rivi), [esimerkkiRivi][i]? = some rivi →
      ∃ aikaStr aika s1 s2 s3 s4 s5 s6 k1 k2 k3 t1 t2 t3,
        haeKentta "Aika" rivi = some aikaStr ∧
        okJasentimet.fromisoformat aikaStr = some aika ∧
        haeKentta "Kulutus vaihe 1 Wh" rivi = some s1 ∧
          okJasentimet.floatLit s1 = some k1 ∧
        haeKentta "Kulutus vaihe 2 Wh" rivi = some s2 ∧
          okJasentimet.floatLit s2 = some k2 ∧
        haeKentta "Kulutus vaihe 3 Wh" rivi = some s3 ∧
          okJasentimet.floatLit s3 = some k3 ∧
        haeKentta "Tuotanto vaihe 1 Wh" rivi = some s4 ∧
          okJasentimet.floatLit s4 = some t1 ∧
        haeKentta "Tuotanto vaihe 2 Wh" rivi = some s5 ∧
          okJasentimet.floatLit s5 = some t2 ∧
        haeKentta "Tuotanto vaihe 3 Wh" rivi = some s6 ∧
          okJasentimet.floatLit s6 = some t3 ∧
        ([(⟨⟨2024, 10, 14⟩, (1500, 1500, 1500), (1500, 1500, 1500)⟩ : Mittaus)])[i]?
          = some ⟨aika.date, (k1, k2, k3), (t1, t2, t3)⟩ :=
  lue_data_rivit okJasentimet [esimerkkiRivi]
    [⟨⟨2024, 10, 14⟩, (1500, 1500, 1500), (1500, 1500, 1500)⟩] (by rfl)
